import Mathlib

/-
Verification of pyespeak.py, a subprocess wrapper around the espeak
speech synthesizer. The Python module is embedded shallowly:

* `buildArgs` is the argument-list construction in `eSpeak.__init__`
  (src/pyespeak.py lines 85-111). The filesystem probe
  `os.path.exists(VOICEDIR+'/'+voice)` is abstracted as a Boolean
  predicate `pathExists` on the probed path, passed as a parameter.
  Python's `x is not lit` comparisons against small interned literals
  ("default", 100, 1, 0, 50, 175, True, False) are modelled as value
  inequality, which is their effective CPython behaviour on these
  literals.
* A live subprocess handle is a `Proc` (its launch argv and a pid).
  The fallible operations `Popen.communicate` / `Popen.terminate` are
  an environment `ProcOps` of functions returning `Except Unit Proc`;
  an `Except.error` models the operation raising an exception, so
  `try/except: pass` blocks become total matches that discard the error.
  `subprocess.Popen` itself is a parameter `spawn` that may fail with
  `SpawnError` (e.g. the program cannot be located).
* `eSpeak.say` never assigns any attribute of the session in the
  source, so it is embedded as a read-only function from the session
  and its argument to the byte-stream events it performs on the
  subprocess's stdin (`IOEvent.write` then `IOEvent.flush`), or the
  exception it raises. Its polymorphic argument (string, file-like
  object with a `read` method, or anything else) is the closed variant
  type `SayArg`; a file-like object is represented by the full content
  its `read()` returns. Python's `str.strip()` is the
  executable `strip` below (leading/trailing whitespace removal,
  whitespace per `Char.isWhitespace`).
* The Python attribute `open` is named `openFlag` here because `open`
  is a Lean keyword.
-/

namespace PyEspeak

def ESPEAKCMD : String := "espeak"

def VOICEDIR : String := "/usr/share/espeak-data/voices"

/-- The `punct` keyword argument: Python `True`/`False` or a string of
punctuation characters. -/
inductive PunctOpt where
  | bool (b : Bool)
  | str (s : String)
deriving DecidableEq, Repr

/-- The keyword arguments of `eSpeak.__init__`, with their Python
defaults. `path` is Python `False` (`none`) or a string. -/
structure Config where
  voice : String := "default"
  amplitude : Int := 100
  gap : Int := 1
  capitals : Int := 0
  linelength : Int := 0
  pitch : Int := 50
  speed : Int := 175
  markup : Bool := false
  nofinalpause : Bool := false
  path : Option String := none
  punct : PunctOpt := PunctOpt.bool false
deriving DecidableEq, Repr

/-- Lines 85-111 of `eSpeak.__init__`: sequential construction of the
launch-argument list. `pathExists` models `os.path.exists`; Python's
`if path:` truthiness makes the empty string behave like `False`. -/
def buildArgs (pathExists : String → Bool) (c : Config) : List String :=
  let args := [ESPEAKCMD]
  let args := if c.voice ≠ "default" ∧ pathExists (VOICEDIR ++ "/" ++ c.voice) = true then
      args ++ ["-v", c.voice] else args
  let args := if c.amplitude ≠ 100 ∧ c.amplitude ≥ 0 ∧ c.amplitude ≤ 200 then
      args ++ ["-a", toString c.amplitude] else args
  let args := if c.gap ≠ 1 then args ++ ["-g", toString c.gap] else args
  let args := if c.capitals ≠ 0 then args ++ ["-k", toString c.capitals] else args
  let args := if c.linelength ≠ 0 then args ++ ["-l", toString c.linelength] else args
  let args := if c.pitch ≠ 50 ∧ c.pitch < 100 ∧ c.pitch ≥ 0 then
      args ++ ["-p", toString c.pitch] else args
  let args := if c.speed ≠ 175 ∧ c.speed > 79 ∧ c.speed < 451 then
      args ++ ["-s", toString c.speed] else args
  let args := if c.markup then args ++ ["-m"] else args
  let args := if c.nofinalpause then args ++ ["-z"] else args
  let args := match c.path with
    | some p => if p ≠ "" then args ++ ["--path=" ++ p] else args
    | none => args
  let args := match c.punct with
    | PunctOpt.bool true => args ++ ["--punct"]
    | PunctOpt.bool false => args
    | PunctOpt.str s => args ++ ["--punct=" ++ s]
  args

/-- Spec-side entry for the voice option: one flag pair when the value
is non-default and names an existing voice resource, nothing otherwise. -/
def voiceEntry (pathExists : String → Bool) (c : Config) : List String :=
  if c.voice ≠ "default" ∧ pathExists (VOICEDIR ++ "/" ++ c.voice) = true then
    ["-v", c.voice] else []

/-- Spec-side entry for amplitude: non-default and in range 0-200. -/
def amplitudeEntry (c : Config) : List String :=
  if c.amplitude ≠ 100 ∧ 0 ≤ c.amplitude ∧ c.amplitude ≤ 200 then
    ["-a", toString c.amplitude] else []

/-- Spec-side entry for gap: any non-default value. -/
def gapEntry (c : Config) : List String :=
  if c.gap ≠ 1 then ["-g", toString c.gap] else []

/-- Spec-side entry for capitals: any non-default value. -/
def capitalsEntry (c : Config) : List String :=
  if c.capitals ≠ 0 then ["-k", toString c.capitals] else []

/-- Spec-side entry for linelength: any non-default value. -/
def linelengthEntry (c : Config) : List String :=
  if c.linelength ≠ 0 then ["-l", toString c.linelength] else []

/-- Spec-side entry for pitch: non-default and in range 0-99. -/
def pitchEntry (c : Config) : List String :=
  if c.pitch ≠ 50 ∧ 0 ≤ c.pitch ∧ c.pitch ≤ 99 then
    ["-p", toString c.pitch] else []

/-- Spec-side entry for speed: non-default and in range 80-450. -/
def speedEntry (c : Config) : List String :=
  if c.speed ≠ 175 ∧ 80 ≤ c.speed ∧ c.speed ≤ 450 then
    ["-s", toString c.speed] else []

/-- Spec-side entry for markup: the bare flag when enabled. -/
def markupEntry (c : Config) : List String :=
  if c.markup then ["-m"] else []

/-- Spec-side entry for nofinalpause: the bare flag when enabled. -/
def nofinalpauseEntry (c : Config) : List String :=
  if c.nofinalpause then ["-z"] else []

/-- Spec-side entry for path: the flag with its value when a non-empty
path string is given. -/
def pathEntry (c : Config) : List String :=
  match c.path with
  | some p => if p ≠ "" then ["--path=" ++ p] else []
  | none => []

/-- Spec-side entry for punct: the bare flag for `True`, the
parameterized flag for a string, nothing for `False`. -/
def punctEntry (c : Config) : List String :=
  match c.punct with
  | PunctOpt.bool true => ["--punct"]
  | PunctOpt.bool false => []
  | PunctOpt.str s => ["--punct=" ++ s]

lemma ite_append (c : Prop) [Decidable c] (l x : List String) :
    (if c then l ++ x else l) = l ++ (if c then x else []) := by
  split <;> simp

/-- The construction decomposes as the program name followed by one
entry list per option, in source order. -/
lemma buildArgs_decomp (pathExists : String → Bool) (c : Config) :
    buildArgs pathExists c =
      ESPEAKCMD :: (voiceEntry pathExists c ++ amplitudeEntry c ++ gapEntry c ++
        capitalsEntry c ++ linelengthEntry c ++ pitchEntry c ++ speedEntry c ++
        markupEntry c ++ nofinalpauseEntry c ++ pathEntry c ++ punctEntry c) := by
  have hamp : ∀ x : Int, (x ≠ 100 ∧ x ≥ 0 ∧ x ≤ 200) ↔ (x ≠ 100 ∧ 0 ≤ x ∧ x ≤ 200) := by
    intro x; omega
  have hpit : ∀ x : Int, (x ≠ 50 ∧ x < 100 ∧ x ≥ 0) ↔ (x ≠ 50 ∧ 0 ≤ x ∧ x ≤ 99) := by
    intro x; omega
  have hspd : ∀ x : Int, (x ≠ 175 ∧ x > 79 ∧ x < 451) ↔ (x ≠ 175 ∧ 80 ≤ x ∧ x ≤ 450) := by
    intro x; omega
  unfold buildArgs voiceEntry amplitudeEntry gapEntry capitalsEntry linelengthEntry
    pitchEntry speedEntry markupEntry nofinalpauseEntry pathEntry punctEntry
  cases c.path <;> rcases c.punct with b | s <;> try cases b
  all_goals
    simp only [ite_append]
    simp only [hamp, hpit, hspd]
    simp [List.append_assoc]

/-- A live subprocess handle: the argv it was launched with and an
identifier distinguishing process instances. -/
structure Proc where
  launchArgs : List String
  pid : Nat
deriving DecidableEq, Repr

/-- The environment of fallible operations on a process handle.
`communicate` waits for the process to exit (draining its streams);
`terminate` sends the stop signal. `Except.error ()` models the call
raising an exception (e.g. the process is already gone). -/
structure ProcOps where
  communicate : Proc → Except Unit Proc
  terminate : Proc → Except Unit Proc

/-- Raised when `subprocess.Popen` cannot locate or start the program. -/
inductive SpawnError where
  | oserror (msg : String)
deriving DecidableEq, Repr

/-- The session object: the launch-argument list computed at
construction, the current subprocess handle, and the `open` flag
(named `openFlag` because `open` is a Lean keyword). -/
structure Session where
  args : List String
  sp : Proc
  openFlag : Bool
deriving DecidableEq, Repr

/-- The argument of `say`: a string, a file-like object (represented by
the full content its `read()` yields), or any other value. -/
inductive SayArg where
  | str (s : String)
  | stream (content : String)
  | other
deriving DecidableEq, Repr

/-- The exceptions `say` can raise: `eSpeakExceptionClosed` on a closed
session, `valueError` for an unsupported argument type. -/
inductive SayError where
  | eSpeakExceptionClosed
  | valueError
deriving DecidableEq, Repr

/-- An effect performed on the subprocess's stdin stream. -/
inductive IOEvent where
  | write (data : String)
  | flush
deriving DecidableEq, Repr

/-- `eSpeak.__init__` (src/pyespeak.py lines 85-113): build the
argument list, spawn the process, set `open`. A spawn failure
propagates. -/
def eSpeak.init (pathExists : String → Bool)
    (spawn : List String → Except SpawnError Proc) (c : Config) :
    Except SpawnError Session :=
  let args := buildArgs pathExists c
  match spawn args with
  | Except.error e => Except.error e
  | Except.ok p => Except.ok { args := args, sp := p, openFlag := true }

/-- Python's `str.strip()`: remove leading and trailing whitespace
characters. Defined structurally on the character list so that it
evaluates on concrete strings. -/
def strip (s : String) : String :=
  ⟨((s.data.dropWhile Char.isWhitespace).reverse.dropWhile Char.isWhitespace).reverse⟩

/-- `eSpeak.say` (lines 115-138). The source assigns no attribute of
`self`, so the embedding returns only the stdin events performed (on
success) or the exception raised; the session is read-only. Both the
string branch and the file branch write `strip(content) + "\n"` and
then flush. -/
def eSpeak.say (s : Session) (something : SayArg) :
    Except SayError (List IOEvent) :=
  if s.openFlag = false then Except.error SayError.eSpeakExceptionClosed
  else
    match something with
    | SayArg.str t =>
        Except.ok [IOEvent.write (strip t ++ "\n"), IOEvent.flush]
    | SayArg.stream content =>
        Except.ok [IOEvent.write (strip content ++ "\n"), IOEvent.flush]
    | SayArg.other => Except.error SayError.valueError

/-- The shared teardown block of `reopen` and `close` (lines 145-149 and
156-160): `try: communicate(); terminate() except: pass`. An exception
from either call aborts the rest of the block and is discarded, so the
result is total whatever the environment does. -/
def tryCommTerm (ops : ProcOps) (p : Proc) : Proc :=
  match ops.communicate p with
  | Except.error _ => p
  | Except.ok p1 =>
    match ops.terminate p1 with
    | Except.error _ => p1
    | Except.ok p2 => p2

/-- `eSpeak.reopen` (lines 140-151): swallowed teardown, then a fresh
`Popen` on the stored `self.args` (not inside the `try`, so a spawn
failure propagates), then `self.open = True`. -/
def eSpeak.reopen (ops : ProcOps) (spawn : List String → Except SpawnError Proc)
    (s : Session) : Except SpawnError Session :=
  let _torn := tryCommTerm ops s.sp
  match spawn s.args with
  | Except.error e => Except.error e
  | Except.ok p => Except.ok { args := s.args, sp := p, openFlag := true }

/-- `eSpeak.close` (lines 153-161): swallowed teardown, then
`self.open = False`. Total: no exception escapes. -/
def eSpeak.close (ops : ProcOps) (s : Session) : Session :=
  { s with sp := tryCommTerm ops s.sp, openFlag := false }

/-- `eSpeak.terminate` (lines 163-170): `try: self.sp.terminate()
except: pass`, then `self.open = False`. It never calls `communicate`,
i.e. it does not wait. Total: no exception escapes. -/
def eSpeak.terminate (ops : ProcOps) (s : Session) : Session :=
  let sp :=
    match ops.terminate s.sp with
    | Except.error _ => s.sp
    | Except.ok p => p
  { s with sp := sp, openFlag := false }

/-- A spawn environment is faithful when a successfully spawned process
records the argv it was launched with. -/
def SpawnFaithful (spawn : List String → Except SpawnError Proc) : Prop :=
  ∀ a p, spawn a = Except.ok p → p.launchArgs = a

/-- Sample process handle used to instantiate theorems. -/
def procA : Proc := { launchArgs := [ESPEAKCMD], pid := 4 }

/-- Sample spawn environment that always succeeds, recording the argv. -/
def spawnA : List String → Except SpawnError Proc :=
  fun a => Except.ok { launchArgs := a, pid := 5 }

/-- Sample environment in which every process operation raises. -/
def opsFail : ProcOps :=
  { communicate := fun _ => Except.error (), terminate := fun _ => Except.error () }

/-- Sample open session. -/
def sessOpen : Session := { args := [ESPEAKCMD], sp := procA, openFlag := true }

/-- Sample closed session. -/
def sessClosed : Session := { args := [ESPEAKCMD], sp := procA, openFlag := false }

lemma spawnA_faithful : SpawnFaithful spawnA := by
  intro a p hp
  injection hp with h
  rw [← h]

end PyEspeak

namespace PyEspeak

/-- C1: the launch-argument list built at construction begins with the
program name and consists, after it, of exactly one entry list per
recognized option — the flag (with its value where the option takes
one) when the option is non-default and in-range, nothing when it is at
its default — in the fixed order voice, amplitude, gap, capitals,
linelength, pitch, speed, markup, nofinalpause, path, punct. -/
theorem construct_argv_fixed_order (pathExists : String → Bool) (c : Config) :
    buildArgs pathExists c =
      ESPEAKCMD :: (voiceEntry pathExists c ++ amplitudeEntry c ++ gapEntry c ++
        capitalsEntry c ++ linelengthEntry c ++ pitchEntry c ++ speedEntry c ++
        markupEntry c ++ nofinalpauseEntry c ++ pathEntry c ++ punctEntry c) ∧
    (buildArgs pathExists c).head? = some ESPEAKCMD := by
  have h := buildArgs_decomp pathExists c
  exact ⟨h, by rw [h]; rfl⟩

/-- C2: an out-of-range amplitude, pitch or speed contributes no flag at
all — the argument list is the same as with the option left at its
default (no clamping, no error) — while the in-range non-default value
speed = 200 yields the speed flag with value "200", and the
out-of-range speed = 50 yields no speed flag. -/
theorem out_of_range_flag_omitted (pathExists : String → Bool) (c : Config) :
    ((c.amplitude < 0 ∨ 200 < c.amplitude) →
      buildArgs pathExists c = buildArgs pathExists { c with amplitude := 100 }) ∧
    ((c.pitch < 0 ∨ 99 < c.pitch) →
      buildArgs pathExists c = buildArgs pathExists { c with pitch := 50 }) ∧
    ((c.speed < 80 ∨ 450 < c.speed) →
      buildArgs pathExists c = buildArgs pathExists { c with speed := 175 }) ∧
    buildArgs pathExists { speed := 50 } = [ESPEAKCMD] ∧
    buildArgs pathExists { speed := 200 } = [ESPEAKCMD, "-s", "200"] := by
  refine ⟨fun h => ?_, fun h => ?_, fun h => ?_, rfl, rfl⟩
  · rw [buildArgs_decomp, buildArgs_decomp]
    have h1 : amplitudeEntry c = [] := by
      have : ¬(c.amplitude ≠ 100 ∧ 0 ≤ c.amplitude ∧ c.amplitude ≤ 200) := by omega
      simp [amplitudeEntry, this]
    have h2 : amplitudeEntry { c with amplitude := 100 } = [] := by
      simp [amplitudeEntry]
    rw [h1, h2]
    rfl
  · rw [buildArgs_decomp, buildArgs_decomp]
    have h1 : pitchEntry c = [] := by
      have : ¬(c.pitch ≠ 50 ∧ 0 ≤ c.pitch ∧ c.pitch ≤ 99) := by omega
      simp [pitchEntry, this]
    have h2 : pitchEntry { c with pitch := 50 } = [] := by
      simp [pitchEntry]
    rw [h1, h2]
    rfl
  · rw [buildArgs_decomp, buildArgs_decomp]
    have h1 : speedEntry c = [] := by
      have : ¬(c.speed ≠ 175 ∧ 80 ≤ c.speed ∧ c.speed ≤ 450) := by omega
      simp [speedEntry, this]
    have h2 : speedEntry { c with speed := 175 } = [] := by
      simp [speedEntry]
    rw [h1, h2]
    rfl

/-- Witness for C2 at amplitude = 300: the flag is omitted, so the list
is the bare program name. -/
theorem out_of_range_flag_omitted_witness :
    buildArgs (fun _ => false) { amplitude := 300 } = [ESPEAKCMD] := by
  have h := (out_of_range_flag_omitted (fun _ => false) { amplitude := 300 }).1
    (Or.inr (by norm_num))
  rw [h]
  rfl

end PyEspeak

namespace PyEspeak

/-- C3: on an open session, Say transmits exactly the input with
leading and trailing whitespace removed and a single newline appended,
followed by an immediate flush; the same transformation applies to the
eagerly-read content of a readable stream; the input
"  hello world  " is transmitted as "hello world\n". -/
theorem say_trims_and_appends_newline (s : Session) (h : s.openFlag = true)
    (t : String) :
    eSpeak.say s (SayArg.str t) =
      Except.ok [IOEvent.write (strip t ++ "\n"), IOEvent.flush] ∧
    eSpeak.say s (SayArg.stream t) =
      Except.ok [IOEvent.write (strip t ++ "\n"), IOEvent.flush] ∧
    eSpeak.say s (SayArg.str "  hello world  ") =
      Except.ok [IOEvent.write "hello world\n", IOEvent.flush] := by
  refine ⟨by simp [eSpeak.say, h], by simp [eSpeak.say, h], ?_⟩
  simp [eSpeak.say, h]
  decide

/-- Witness for C3 on a concrete open session. -/
theorem say_trims_and_appends_newline_witness :
    eSpeak.say sessOpen (SayArg.str "  hello world  ") =
      Except.ok [IOEvent.write "hello world\n", IOEvent.flush] :=
  (say_trims_and_appends_newline sessOpen rfl "x").2.2

/-- C4: Say on a closed session raises the closed-session exception and
performs no write to any stream (the raising path returns no stdin
events; `say` assigns no session attribute in the source, so the
session itself is untouched). -/
theorem say_closed_raises (s : Session) (h : s.openFlag = false) (arg : SayArg) :
    eSpeak.say s arg = Except.error SayError.eSpeakExceptionClosed ∧
    ∀ evs, eSpeak.say s arg ≠ Except.ok evs := by
  refine ⟨by simp [eSpeak.say, h], fun evs => by simp [eSpeak.say, h]⟩

/-- Witness for C4 on a concrete closed session. -/
theorem say_closed_raises_witness :
    eSpeak.say sessClosed (SayArg.str "hi") =
      Except.error SayError.eSpeakExceptionClosed :=
  (say_closed_raises sessClosed rfl (SayArg.str "hi")).1

/-- C5: on an open session, Say raises the unsupported-input exception
exactly when its argument is neither a string nor a readable stream. -/
theorem say_unsupported_iff (s : Session) (h : s.openFlag = true) (arg : SayArg) :
    eSpeak.say s arg = Except.error SayError.valueError ↔ arg = SayArg.other := by
  cases arg <;> simp [eSpeak.say, h]

/-- Witness for C5 at a concrete unsupported argument. -/
theorem say_unsupported_iff_witness :
    eSpeak.say sessOpen SayArg.other = Except.error SayError.valueError :=
  (say_unsupported_iff sessOpen rfl SayArg.other).mpr rfl

/-- C6: Reopen's result never depends on the teardown environment (any
error raised by the wait/terminate sequence is swallowed); it fails
exactly when spawning on the stored argument list fails, and that spawn
error propagates unchanged; on success the session holds the freshly
spawned process and the open flag is set. -/
theorem reopen_swallows_teardown_propagates_spawn (ops : ProcOps)
    (spawn : List String → Except SpawnError Proc) (s : Session) :
    (∀ ops2 : ProcOps, eSpeak.reopen ops2 spawn s = eSpeak.reopen ops spawn s) ∧
    (∀ e, eSpeak.reopen ops spawn s = Except.error e ↔ spawn s.args = Except.error e) ∧
    (∀ p, spawn s.args = Except.ok p →
      eSpeak.reopen ops spawn s =
        Except.ok { args := s.args, sp := p, openFlag := true }) := by
  refine ⟨fun ops2 => rfl, fun e => ?_, fun p hp => by simp [eSpeak.reopen, hp]⟩
  unfold eSpeak.reopen
  cases hsp : spawn s.args <;> simp [hsp]

/-- Witness for C6: the spawn succeeds and the teardown environment in
which every operation raises is irrelevant. -/
theorem reopen_swallows_teardown_propagates_spawn_witness :
    eSpeak.reopen opsFail spawnA sessOpen =
      Except.ok { args := sessOpen.args,
                  sp := { launchArgs := sessOpen.args, pid := 5 },
                  openFlag := true } :=
  (reopen_swallows_teardown_propagates_spawn opsFail spawnA sessOpen).2.2
    { launchArgs := sessOpen.args, pid := 5 } rfl

/-- C7: Close never raises (it is a total function even in an
environment where every teardown operation raises, including on an
already-closed session), leaves the open flag false, and a subsequent
Say fails with the closed-session exception; closing twice still ends
closed. -/
theorem close_idempotent_effect (ops ops2 : ProcOps) (s : Session) (arg : SayArg) :
    (eSpeak.close ops s).openFlag = false ∧
    eSpeak.say (eSpeak.close ops s) arg = Except.error SayError.eSpeakExceptionClosed ∧
    (eSpeak.close ops2 (eSpeak.close ops s)).openFlag = false := by
  exact ⟨rfl, by simp [eSpeak.say, eSpeak.close], rfl⟩

/-- C8: Terminate always ends with the open flag false; when the signal
delivery raises (process already gone) the error is swallowed and the
session is simply marked closed; and the result never depends on the
`communicate` operation — it does not wait for queued text. -/
theorem terminate_closes_and_swallows (ops : ProcOps) (s : Session) :
    (eSpeak.terminate ops s).openFlag = false ∧
    (ops.terminate s.sp = Except.error () →
      eSpeak.terminate ops s = { s with openFlag := false }) ∧
    (∀ comm2, eSpeak.terminate { ops with communicate := comm2 } s =
      eSpeak.terminate ops s) := by
  refine ⟨rfl, fun h => by simp [eSpeak.terminate, h], fun comm2 => rfl⟩

/-- Witness for C8 in the environment where the signal raises. -/
theorem terminate_closes_and_swallows_witness :
    eSpeak.terminate opsFail sessOpen = { sessOpen with openFlag := false } :=
  (terminate_closes_and_swallows opsFail sessOpen).2.1 rfl

/-- C9: no operation changes the launch-argument list computed at
construction: Close and Terminate preserve it, a successful Reopen
returns a session carrying the same list, and (for any spawn
environment that records the argv it was given) the relaunched process
was started with exactly that list. `say` assigns no session attribute
in the source, so it cannot touch the list. -/
theorem args_immutable (ops : ProcOps)
    (spawn : List String → Except SpawnError Proc) (s : Session)
    (hf : SpawnFaithful spawn) :
    (eSpeak.close ops s).args = s.args ∧
    (eSpeak.terminate ops s).args = s.args ∧
    (∀ s2, eSpeak.reopen ops spawn s = Except.ok s2 →
      s2.args = s.args ∧ s2.sp.launchArgs = s.args) := by
  refine ⟨rfl, rfl, fun s2 h2 => ?_⟩
  cases hsp : spawn s.args with
  | error e => simp [eSpeak.reopen, hsp] at h2
  | ok p =>
    simp [eSpeak.reopen, hsp] at h2
    rw [← h2]
    exact ⟨rfl, hf s.args p hsp⟩

/-- Witness for C9 with the recording spawn environment. -/
theorem args_immutable_witness :
    (eSpeak.close opsFail sessOpen).args = sessOpen.args :=
  (args_immutable opsFail spawnA sessOpen spawnA_faithful).1

/-- C10: Reopen performs no open-flag check, so it succeeds on a closed
session whenever the spawn does: the new session is open, holds the
newly spawned process, and a subsequent Say succeeds. -/
theorem reopen_from_closed (ops : ProcOps)
    (spawn : List String → Except SpawnError Proc) (s : Session) (p : Proc)
    (t : String) (_hclosed : s.openFlag = false)
    (hp : spawn s.args = Except.ok p) :
    eSpeak.reopen ops spawn s =
      Except.ok { args := s.args, sp := p, openFlag := true } ∧
    eSpeak.say { args := s.args, sp := p, openFlag := true } (SayArg.str t) =
      Except.ok [IOEvent.write (strip t ++ "\n"), IOEvent.flush] := by
  exact ⟨by simp [eSpeak.reopen, hp], by simp [eSpeak.say]⟩

/-- Witness for C10 on a concrete closed session. -/
theorem reopen_from_closed_witness :
    eSpeak.reopen opsFail spawnA sessClosed =
      Except.ok { args := sessClosed.args,
                  sp := { launchArgs := sessClosed.args, pid := 5 },
                  openFlag := true } :=
  (reopen_from_closed opsFail spawnA sessClosed
    { launchArgs := sessClosed.args, pid := 5 } "hi" rfl rfl).1

end PyEspeak
